import Mathlib

/-!
Verification of `qtsurfacetexture/qsurfacetexture.cpp` (qt-android-ExoPlayer).

The C++ file is glue between the Qt Quick scene graph and Android's
`SurfaceTexture` through JNI.  We embed it shallowly: every C++ member
function becomes a Lean function that returns the updated objects together
with an explicit, ordered list of the external calls (JNI calls, GL calls,
Qt meta-object invocations) it performs.  Machine handles (JNI references,
GL texture ids, object addresses) are modelled as `Nat`; the 16 `float`
entries of the texture transform matrix are modelled as `Int` values, since
the code only ever copies and compares them; `qreal` rectangle coordinates
are modelled as `ℚ`.
-/

/-- GL_TEXTURE_EXTERNAL_OES -/
def GL_TEXTURE_EXTERNAL_OES : Nat := 0x8D65

/-- GL_TEXTURE0 -/
def GL_TEXTURE0 : Nat := 0x84C0

/-- GL_NEAREST -/
def GL_NEAREST : Nat := 0x2600

/-- GL_LINEAR -/
def GL_LINEAR : Nat := 0x2601

/-- GL_CLAMP_TO_EDGE -/
def GL_CLAMP_TO_EDGE : Nat := 0x812F

/-- GL_TEXTURE_MIN_FILTER -/
def GL_TEXTURE_MIN_FILTER : Nat := 0x2801

/-- GL_TEXTURE_MAG_FILTER -/
def GL_TEXTURE_MAG_FILTER : Nat := 0x2800

/-- GL_TEXTURE_WRAP_S -/
def GL_TEXTURE_WRAP_S : Nat := 0x2802

/-- GL_TEXTURE_WRAP_T -/
def GL_TEXTURE_WRAP_T : Nat := 0x2803

/-- The shader material state (`struct State`): a 4x4 texture transform
matrix, 16 entries in the flat layout `QMatrix4x4::data()` exposes. -/
structure State where
  uSTMatrix : List Int
deriving DecidableEq, Repr

/-- `State::compare`: `uSTMatrix == other->uSTMatrix ? 0 : -1`. -/
def State.compare (s other : State) : Int :=
  if s.uSTMatrix = other.uSTMatrix then 0 else -1

/-- A default-constructed `State`: `QMatrix4x4` initialises to the
identity matrix. -/
def identityMatrix4 : List Int :=
  [1, 0, 0, 0, 0, 1, 0, 0, 0, 0, 1, 0, 0, 0, 0, 1]

/-- Qt connection types, as used by `QMetaObject::invokeMethod`. -/
inductive ConnectionType where
  | autoConnection
  | directConnection
  | queuedConnection
deriving DecidableEq, Repr

/-- `QRectF`: stored as x, y (top-left corner), width, height, over `ℚ`
standing in for `qreal`. -/
structure QRectF where
  x : ℚ
  y : ℚ
  w : ℚ
  h : ℚ
deriving DecidableEq, Repr

/-- `QRectF::top const` returns `y`. -/
def QRectF.top (r : QRectF) : ℚ := r.y

/-- `QRectF::bottom const` returns `y + h`. -/
def QRectF.bottom (r : QRectF) : ℚ := r.y + r.h

/-- `QRectF::left const` returns `x`. -/
def QRectF.left (r : QRectF) : ℚ := r.x

/-- `QRectF::right const` returns `x + w`. -/
def QRectF.right (r : QRectF) : ℚ := r.x + r.w

/-- `QRectF::setTop(pos)`: `h += y - pos; y = pos;` (the bottom edge is
unchanged). -/
def QRectF.setTop (r : QRectF) (pos : ℚ) : QRectF :=
  { r with y := pos, h := r.h + (r.y - pos) }

/-- `QRectF::setBottom(pos)`: `h = pos - y;` (the top edge is unchanged). -/
def QRectF.setBottom (r : QRectF) (pos : ℚ) : QRectF :=
  { r with h := pos - r.y }

/-- One observable external call made by the C++ code, in the order the
code issues them. -/
inductive Effect where
  | jniNewFloatArray (len arrayRef : Nat)
  | jniNewGlobalRef (arrayRef : Nat)
  | jniDeleteLocalRef (arrayRef : Nat)
  | jniDeleteGlobalRef (arrayRef : Nat)
  | callUpdateTexImage
  | callGetTransformMatrix (arrayRef : Nat)
  | jniGetFloatArrayRegion (arrayRef start len : Nat)
  | glActiveTexture (unit : Nat)
  | glBindTexture (target texId : Nat)
  | glGenTextures (texId : Nat)
  | glDeleteTextures (texId : Nat)
  | glTexParameterf (target pname param : Nat)
  | glTexParameteri (target pname param : Nat)
  | newSurfaceTexture (texId : Nat)
  | setOnFrameAvailableListener (ptr : Nat)
  | invokeUpdate (ptr : Nat) (conn : ConnectionType)
  | updateTexturedRectGeometry (rect texRect : QRectF)
  | markDirty (dirtyGeometry dirtyMaterial : Bool)
deriving DecidableEq, Repr

/-- Recognises `jniNewFloatArray` effects. -/
def Effect.isNewFloatArray : Effect → Bool
  | .jniNewFloatArray _ _ => true
  | _ => false

/-- Recognises `glTexParameterf`/`glTexParameteri` effects. -/
def Effect.isTexParameter : Effect → Bool
  | .glTexParameterf _ _ _ => true
  | .glTexParameteri _ _ _ => true
  | _ => false

/-- Recognises `updateTexturedRectGeometry` effects. -/
def Effect.isUpdateGeom : Effect → Bool
  | .updateTexturedRectGeometry _ _ => true
  | _ => false

/-- The JNI environment as the code observes it: a fresh-reference
counter, the contents of every live `jfloatArray` (JNI arrays are
zero-initialised on allocation), and the 16-entry transform that the
platform `SurfaceTexture.getTransformMatrix` currently writes. -/
structure JniEnv where
  nextRef : Nat
  arrays : Nat → List Int
  transformMatrix : List Int

/-- The scene-graph node (`class SurfaceTextureNode`).  `material` is the
material pointer as seen through `material()` (`none` models a null
pointer); `m_geometry` records the vertex and texture rectangles last
written by `updateTexturedRectGeometry`. -/
structure SurfaceTextureNode where
  m_surfaceTexture : Nat
  m_geometry : QRectF × QRectF
  m_uSTMatrixArray : Nat
  m_textureId : Nat
  material : Option State
  usePreprocess : Bool
  ownsMaterial : Bool
  dirtyGeometry : Bool
  dirtyMaterial : Bool

/-- `SurfaceTextureNode::SurfaceTextureNode(surfaceTexture, textureId)`:
sets the preprocess flag, installs a fresh `SurfaceTextureShader`
material (default `State`, blending off), allocates one 16-element JNI
float array, promotes it to a global reference and drops the local
reference. -/
def SurfaceTextureNode.construct (surfaceTexture texId : Nat) (env : JniEnv) :
    SurfaceTextureNode × JniEnv × List Effect :=
  let arr := env.nextRef
  let env1 : JniEnv :=
    { env with
      nextRef := env.nextRef + 1
      arrays := fun r => if r = arr then List.replicate 16 0 else env.arrays r }
  ({ m_surfaceTexture := surfaceTexture
     m_geometry := (⟨0, 0, 0, 0⟩, ⟨0, 0, 0, 0⟩)
     m_uSTMatrixArray := arr
     m_textureId := texId
     material := some { uSTMatrix := identityMatrix4 }
     usePreprocess := true
     ownsMaterial := true
     dirtyGeometry := false
     dirtyMaterial := false },
   env1,
   [Effect.jniNewFloatArray 16 arr, Effect.jniNewGlobalRef arr,
    Effect.jniDeleteLocalRef arr])

/-- `SurfaceTextureNode::~SurfaceTextureNode`: deletes the global
reference to the float array. -/
def SurfaceTextureNode.destruct (node : SurfaceTextureNode) : List Effect :=
  [Effect.jniDeleteGlobalRef node.m_uSTMatrixArray]

/-- `SurfaceTextureNode::preprocess`: if `material()` is null, return at
once; otherwise call `updateTexImage`, call `getTransformMatrix` filling
the reused array, copy 16 floats from that array into the material
state's `uSTMatrix` with `GetFloatArrayRegion`, then activate texture
unit 0 and bind the external texture. -/
def SurfaceTextureNode.preprocess (node : SurfaceTextureNode) (env : JniEnv) :
    SurfaceTextureNode × JniEnv × List Effect :=
  match node.material with
  | none => (node, env, [])
  | some _ =>
    let env1 : JniEnv :=
      { env with
        arrays := fun r =>
          if r = node.m_uSTMatrixArray then env.transformMatrix
          else env.arrays r }
    let copied := (env1.arrays node.m_uSTMatrixArray).take 16
    ({ node with material := some { uSTMatrix := copied } },
     env1,
     [Effect.callUpdateTexImage,
      Effect.callGetTransformMatrix node.m_uSTMatrixArray,
      Effect.jniGetFloatArrayRegion node.m_uSTMatrixArray 0 16,
      Effect.glActiveTexture GL_TEXTURE0,
      Effect.glBindTexture GL_TEXTURE_EXTERNAL_OES node.m_textureId])

/-- The QML item (`class QSurfaceTexture`).  `ptr` is the item's own
address, handed to the Java listener as a `jlong`; `m_surfaceTexture` is
the handle of the Java `SurfaceTexture` object once created. -/
structure QSurfaceTexture where
  ptr : Nat
  m_textureId : Nat
  m_surfaceTexture : Option Nat
  itemHasContents : Bool

/-- `QSurfaceTexture::QSurfaceTexture(parent)`: sets `ItemHasContents`;
`m_textureId` starts at 0 (member initialiser in the class declaration)
and no Java object exists yet. -/
def QSurfaceTexture.construct (ptr : Nat) : QSurfaceTexture :=
  { ptr := ptr
    m_textureId := 0
    m_surfaceTexture := none
    itemHasContents := true }

/-- `QSurfaceTexture::~QSurfaceTexture`: `if (m_textureId)` unbind the
external texture target and delete the texture; otherwise do nothing. -/
def QSurfaceTexture.destruct (item : QSurfaceTexture) : List Effect :=
  if item.m_textureId = 0 then []
  else
    [Effect.glBindTexture GL_TEXTURE_EXTERNAL_OES 0,
     Effect.glDeleteTextures item.m_textureId]

/-- `QSurfaceTexture::updatePaintNode(n, _)`.  `genTexId` is the texture
name `glGenTextures` hands back on the first-paint path.  When `n` is
null: generate and configure the external texture, create the Java
`SurfaceTexture` object, install the frame-available listener, and build
the node.  In all cases: flip the bounding rectangle vertically via
`setTop`/`setBottom`, update the node's textured-rect geometry with the
full unit texture square, and mark geometry and material dirty. -/
def QSurfaceTexture.updatePaintNode (item : QSurfaceTexture)
    (n : Option SurfaceTextureNode) (boundingRect : QRectF)
    (genTexId : Nat) (env : JniEnv) :
    QSurfaceTexture × SurfaceTextureNode × JniEnv × List Effect :=
  let created :=
    match n with
    | some node => (item, node, env, ([] : List Effect))
    | none =>
      let stObj := env.nextRef
      let envA : JniEnv := { env with nextRef := env.nextRef + 1 }
      let itemA : QSurfaceTexture :=
        { item with m_textureId := genTexId, m_surfaceTexture := some stObj }
      let built := SurfaceTextureNode.construct stObj genTexId envA
      (itemA, built.1, built.2.1,
       [Effect.glGenTextures genTexId,
        Effect.glBindTexture GL_TEXTURE_EXTERNAL_OES genTexId,
        Effect.glTexParameterf GL_TEXTURE_EXTERNAL_OES GL_TEXTURE_MIN_FILTER GL_NEAREST,
        Effect.glTexParameterf GL_TEXTURE_EXTERNAL_OES GL_TEXTURE_MAG_FILTER GL_LINEAR,
        Effect.glTexParameteri GL_TEXTURE_EXTERNAL_OES GL_TEXTURE_WRAP_S GL_CLAMP_TO_EDGE,
        Effect.glTexParameteri GL_TEXTURE_EXTERNAL_OES GL_TEXTURE_WRAP_T GL_CLAMP_TO_EDGE,
        Effect.newSurfaceTexture genTexId,
        Effect.setOnFrameAvailableListener item.ptr] ++ built.2.2)
  let item1 := created.1
  let node0 := created.2.1
  let env1 := created.2.2.1
  let fx1 := created.2.2.2
  let rect0 := boundingRect
  let tmp := rect0.top
  let rect1 := rect0.setTop rect0.bottom
  let rect2 := rect1.setBottom tmp
  let node1 :=
    { node0 with
      m_geometry := (rect2, ⟨0, 0, 1, 1⟩)
      dirtyGeometry := true
      dirtyMaterial := true }
  (item1, node1, env1,
   fx1 ++ [Effect.updateTexturedRectGeometry rect2 ⟨0, 0, 1, 1⟩,
           Effect.markDirty true true])

/-- `Java_com_kdab_android_SurfaceTextureListener_frameAvailable(env,
thiz, ptr, surfaceTexture)`: queue an invocation of the `update` slot on
the `QSurfaceTexture` at address `ptr`. -/
def frameAvailable (ptr : Nat) : List Effect :=
  [Effect.invokeUpdate ptr ConnectionType.queuedConnection]

/-! Concrete values used by the witness theorems. -/

/-- A concrete node whose material pointer is valid. -/
def nodeW : SurfaceTextureNode :=
  { m_surfaceTexture := 5
    m_geometry := (⟨0, 0, 0, 0⟩, ⟨0, 0, 0, 0⟩)
    m_uSTMatrixArray := 7
    m_textureId := 3
    material := some { uSTMatrix := identityMatrix4 }
    usePreprocess := true
    ownsMaterial := true
    dirtyGeometry := false
    dirtyMaterial := false }

/-- A concrete item that has painted once (texture id 3). -/
def itemW : QSurfaceTexture :=
  { ptr := 42
    m_textureId := 3
    m_surfaceTexture := some 5
    itemHasContents := true }

/-! The claims. -/

/-- C5: every call to the JNI callback
`Java_com_kdab_android_SurfaceTextureListener_frameAvailable` performs
exactly one invocation of the `update` slot on the `QSurfaceTexture`
identified by `ptr`, with `Qt::QueuedConnection`, and nothing else. -/
theorem frameAvailable_single_queued_update (ptr : Nat) :
    frameAvailable ptr =
      [Effect.invokeUpdate ptr ConnectionType.queuedConnection] := rfl

/-- C8: `State::compare` returns 0 exactly when the two `uSTMatrix`
fields are equal and -1 otherwise; it is reflexive and its zero/non-zero
outcome is symmetric. -/
theorem State_compare_eq_and_refl_and_symm (s t : State) :
    (s.compare t = 0 ↔ s.uSTMatrix = t.uSTMatrix)
    ∧ (s.compare t = 0 ∨ s.compare t = -1)
    ∧ (s.compare t = -1 ↔ s.uSTMatrix ≠ t.uSTMatrix)
    ∧ s.compare s = 0
    ∧ (s.compare t = 0 ↔ t.compare s = 0) := by
  unfold State.compare
  by_cases h : s.uSTMatrix = t.uSTMatrix
  · simp [h]
  · have h' : ¬t.uSTMatrix = s.uSTMatrix := fun hh => h hh.symm
    simp [h, h']

/-- C10: a `QSurfaceTexture` whose texture id is still 0 (as after
construction, before any `updatePaintNode` call) performs no GL call in
its destructor: the destructor body is guarded by the id being
non-zero. -/
theorem destructor_no_gl_when_texture_zero (item : QSurfaceTexture) (p : Nat) :
    (QSurfaceTexture.construct p).m_textureId = 0
    ∧ QSurfaceTexture.destruct { item with m_textureId := 0 } = []
    ∧ (QSurfaceTexture.construct p).destruct = [] := by
  refine ⟨rfl, ?_, ?_⟩ <;> simp [QSurfaceTexture.destruct, QSurfaceTexture.construct]

/-- C6: when `material()` is null, `preprocess` returns immediately: the
node and the JNI environment are unchanged and no external call (JNI or
GL) is made. -/
theorem preprocess_null_material_no_effect (node : SurfaceTextureNode)
    (env : JniEnv) :
    SurfaceTextureNode.preprocess { node with material := none } env =
      ({ node with material := none }, env, []) := rfl

/-- C1: with a non-null material, `preprocess` performs, in order:
`updateTexImage`, `getTransformMatrix` into the reused array, a copy of
16 floats from that array into the material state's `uSTMatrix`, then
activation of texture unit 0 and a bind of the node's external texture
id; the resulting matrix is exactly the 16 floats the platform wrote
into the array. -/
theorem preprocess_order_and_matrix_copy (node : SurfaceTextureNode)
    (st : State) (env : JniEnv) :
    (SurfaceTextureNode.preprocess { node with material := some st } env).2.2 =
      [Effect.callUpdateTexImage,
       Effect.callGetTransformMatrix node.m_uSTMatrixArray,
       Effect.jniGetFloatArrayRegion node.m_uSTMatrixArray 0 16,
       Effect.glActiveTexture GL_TEXTURE0,
       Effect.glBindTexture GL_TEXTURE_EXTERNAL_OES node.m_textureId]
    ∧ (SurfaceTextureNode.preprocess { node with material := some st } env).1.material =
        some { uSTMatrix :=
          (((SurfaceTextureNode.preprocess { node with material := some st }
              env).2.1).arrays node.m_uSTMatrixArray).take 16 }
    ∧ (SurfaceTextureNode.preprocess { node with material := some st } env).1.material =
        some { uSTMatrix := env.transformMatrix.take 16 } := by
  refine ⟨rfl, rfl, ?_⟩
  simp [SurfaceTextureNode.preprocess]

/-- C2: construction allocates exactly one 16-element JNI float array,
promotes it to a global reference and drops the local reference; every
`preprocess` call allocates no new array, keeps the stored reference
unchanged, and addresses only that reference in `getTransformMatrix` and
`GetFloatArrayRegion`; the destructor deletes the global reference. -/
theorem matrix_array_allocated_once_reused_freed (stObj texId : Nat)
    (env : JniEnv) (node : SurfaceTextureNode) (env2 : JniEnv) :
    (SurfaceTextureNode.construct stObj texId env).2.2 =
      [Effect.jniNewFloatArray 16 env.nextRef,
       Effect.jniNewGlobalRef env.nextRef,
       Effect.jniDeleteLocalRef env.nextRef]
    ∧ (SurfaceTextureNode.construct stObj texId env).1.m_uSTMatrixArray = env.nextRef
    ∧ ((SurfaceTextureNode.preprocess node env2).2.2).filter Effect.isNewFloatArray = []
    ∧ (SurfaceTextureNode.preprocess node env2).1.m_uSTMatrixArray =
        node.m_uSTMatrixArray
    ∧ (∀ r, Effect.callGetTransformMatrix r ∈
          (SurfaceTextureNode.preprocess node env2).2.2 → r = node.m_uSTMatrixArray)
    ∧ (∀ r a b, Effect.jniGetFloatArrayRegion r a b ∈
          (SurfaceTextureNode.preprocess node env2).2.2 → r = node.m_uSTMatrixArray)
    ∧ node.destruct = [Effect.jniDeleteGlobalRef node.m_uSTMatrixArray] := by
  refine ⟨rfl, rfl, ?_, ?_, ?_, ?_, rfl⟩ <;>
    cases h : node.material <;>
      simp [SurfaceTextureNode.preprocess, h, Effect.isNewFloatArray] <;>
        intros <;> simp_all

/-- C3: a call to `updatePaintNode` with a non-null node leaves the item
(hence `m_textureId` and `m_surfaceTexture`) and the JNI environment
unchanged and only updates the node's geometry and dirty flags, issuing
no creation call; the texture, Java object and listener creations appear
only in the null-node (first paint) trace. -/
theorem updatePaintNode_nonnull_only_geometry (item : QSurfaceTexture)
    (node : SurfaceTextureNode) (br : QRectF) (genTexId : Nat) (env : JniEnv) :
    (QSurfaceTexture.updatePaintNode item (some node) br genTexId env).1 = item
    ∧ (QSurfaceTexture.updatePaintNode item (some node) br genTexId env).2.2.1 = env
    ∧ (QSurfaceTexture.updatePaintNode item (some node) br genTexId env).2.1 =
        { node with
          m_geometry := ((br.setTop br.bottom).setBottom br.top, ⟨0, 0, 1, 1⟩)
          dirtyGeometry := true
          dirtyMaterial := true }
    ∧ (QSurfaceTexture.updatePaintNode item (some node) br genTexId env).2.2.2 =
        [Effect.updateTexturedRectGeometry
           ((br.setTop br.bottom).setBottom br.top) ⟨0, 0, 1, 1⟩,
         Effect.markDirty true true]
    ∧ Effect.glGenTextures genTexId ∈
        (QSurfaceTexture.updatePaintNode item none br genTexId env).2.2.2
    ∧ Effect.newSurfaceTexture genTexId ∈
        (QSurfaceTexture.updatePaintNode item none br genTexId env).2.2.2
    ∧ Effect.setOnFrameAvailableListener item.ptr ∈
        (QSurfaceTexture.updatePaintNode item none br genTexId env).2.2.2 := by
  refine ⟨rfl, rfl, rfl, rfl, ?_, ?_, ?_⟩ <;>
    simp [QSurfaceTexture.updatePaintNode, SurfaceTextureNode.construct]

/-- C4: on the first-paint path the texture parameter calls are exactly:
min filter `GL_NEAREST`, mag filter `GL_LINEAR`, and `GL_CLAMP_TO_EDGE`
wrap on both S and T. -/
theorem first_paint_texture_parameters (item : QSurfaceTexture) (br : QRectF)
    (genTexId : Nat) (env : JniEnv) :
    ((QSurfaceTexture.updatePaintNode item none br genTexId env).2.2.2).filter
        Effect.isTexParameter =
      [Effect.glTexParameterf GL_TEXTURE_EXTERNAL_OES GL_TEXTURE_MIN_FILTER GL_NEAREST,
       Effect.glTexParameterf GL_TEXTURE_EXTERNAL_OES GL_TEXTURE_MAG_FILTER GL_LINEAR,
       Effect.glTexParameteri GL_TEXTURE_EXTERNAL_OES GL_TEXTURE_WRAP_S GL_CLAMP_TO_EDGE,
       Effect.glTexParameteri GL_TEXTURE_EXTERNAL_OES GL_TEXTURE_WRAP_T GL_CLAMP_TO_EDGE] := by
  rfl

/-- C7: an item owning a texture (non-zero id) unbinds the external
texture target and deletes its texture in its destructor; a node's
destructor releases the global reference to its float array. -/
theorem destructors_free_texture_and_array (item : QSurfaceTexture)
    (node : SurfaceTextureNode) (h : item.m_textureId ≠ 0) :
    item.destruct =
      [Effect.glBindTexture GL_TEXTURE_EXTERNAL_OES 0,
       Effect.glDeleteTextures item.m_textureId]
    ∧ node.destruct = [Effect.jniDeleteGlobalRef node.m_uSTMatrixArray] := by
  refine ⟨?_, rfl⟩
  simp [QSurfaceTexture.destruct, h]

/-- Witness for C7 at a concrete item and node. -/
theorem destructors_free_texture_and_array_witness :
    itemW.destruct =
      [Effect.glBindTexture GL_TEXTURE_EXTERNAL_OES 0,
       Effect.glDeleteTextures itemW.m_textureId]
    ∧ nodeW.destruct = [Effect.jniDeleteGlobalRef nodeW.m_uSTMatrixArray] :=
  destructors_free_texture_and_array itemW nodeW (by decide)

/-- C9: on every `updatePaintNode` call the one geometry update uses the
bounding rectangle flipped vertically (top and bottom swapped, left and
right unchanged) and the full unit texture square. -/
theorem geometry_vertical_flip_full_unit_texture (item : QSurfaceTexture)
    (n : Option SurfaceTextureNode) (br : QRectF) (genTexId : Nat)
    (env : JniEnv) :
    ((QSurfaceTexture.updatePaintNode item n br genTexId env).2.2.2).filter
        Effect.isUpdateGeom =
      [Effect.updateTexturedRectGeometry
        ((br.setTop br.bottom).setBottom br.top) ⟨0, 0, 1, 1⟩]
    ∧ ((br.setTop br.bottom).setBottom br.top).top = br.bottom
    ∧ ((br.setTop br.bottom).setBottom br.top).bottom = br.top
    ∧ ((br.setTop br.bottom).setBottom br.top).left = br.left
    ∧ ((br.setTop br.bottom).setBottom br.top).right = br.right := by
  refine ⟨?_, ?_, ?_, ?_, ?_⟩
  · cases n <;> rfl
  all_goals
    simp [QRectF.setTop, QRectF.setBottom, QRectF.top, QRectF.bottom,
      QRectF.left, QRectF.right]
